import Mathlib

/-!
Shallow embedding of `cmd/telegraf/telegraf-win.go` (the Windows service
entry point of telegraf): flag resolution, informational commands,
configuration bootstrap, engine launch, the reload loop and the service
administration commands.  External collaborators (config loader, agent,
winsvc) are modelled as an environment of result-valued functions; the
control flow of `main` and `start` is translated line by line.  Each cycle
produces a trace of observable events together with an outcome.
-/

namespace TelegrafWin

/-- ASCII whitespace recognised by Go `strings.TrimSpace` (`unicode.IsSpace`
restricted to the ASCII range, which covers the flag values at issue). -/
def isSpaceChar (c : Char) : Bool :=
  c = ' ' || c = '\t' || c = '\n' || c = '\x0b' || c = '\x0c' || c = '\r'

/-- Go `strings.TrimSpace`: drop whitespace from both ends. -/
def trimSpace (s : String) : String :=
  String.mk (((s.data.dropWhile isSpaceChar).reverse.dropWhile isSpaceChar).reverse)

/-- Helper for Go `strings.Split(s, ":")`: accumulate the current field
(reversed) and cut at every separator.  Produces the empty field for
leading, trailing and adjacent separators, exactly as Go does. -/
def splitColonAux : List Char → List Char → List String
  | [], acc => [String.mk acc.reverse]
  | c :: rest, acc =>
    if c = ':' then String.mk acc.reverse :: splitColonAux rest []
    else splitColonAux rest (c :: acc)

/-- Go `strings.Split(s, ":")`. -/
def splitColon (s : String) : List String :=
  splitColonAux s.data []

/-- telegraf-win.go lines 176-177 (and 180-181, 186-187, 190-191):
`strings.Split(":"+strings.TrimSpace(flagValue)+":", ":")`. -/
def parseFilter (s : String) : List String :=
  splitColon (":" ++ trimSpace s ++ ":")

/-- telegraf-win.go lines 174-182 (inputs) and 184-192 (outputs): the
filter slice starts nil, is assigned from the legacy flag when that flag is
non-empty, then overwritten from the current flag when that one is
non-empty.  `none` models the nil slice (no filtering). -/
def resolveFilters (legacy current : String) : Option (List String) :=
  let fromLegacy : Option (List String) :=
    if legacy ≠ "" then some (parseFilter legacy) else none
  if current ≠ "" then some (parseFilter current) else fromLegacy

/-- The parsed command-line flags of telegraf-win.go lines 20-51, after
`flag.Parse` (assignment is by flag name, so command-line order is gone). -/
structure Flags where
  fDebug : Bool
  fQuiet : Bool
  fTest : Bool
  fConfig : String
  fConfigDirectory : String
  fVersion : Bool
  fSampleConfig : Bool
  fPidfile : String
  fInputFilters : String
  fOutputFilters : String
  fUsage : String
  fServiceName : String
  fServiceDesc : String
  fServiceInstall : Bool
  fServiceUninstall : Bool
  fServiceStart : Bool
  fServiceStop : Bool
  fInputFiltersLegacy : String
  fOutputFiltersLegacy : String
  fConfigDirectoryLegacy : String
deriving Repr, DecidableEq

/-- The slice of `internal/config.Config` visible to this entry point:
the filter fields it assigns (lines 221-222) and the plugin lists whose
lengths it validates (lines 246-251).  The loader may populate the rest. -/
structure Config where
  inputFilters : Option (List String)
  outputFilters : Option (List String)
  inputs : List String
  outputs : List String
deriving Repr, DecidableEq

/-- Model of `config.NewConfig()`: fresh handle, no filters, no plugins. -/
def Config.new : Config :=
  { inputFilters := none, outputFilters := none, inputs := [], outputs := [] }

/-- The slice of the agent visible here: `ag.Config.Agent.Debug`,
`ag.Config.Agent.Quiet` (lines 258-264) and, opaquely, every other engine
configuration field, which this entry point never touches. -/
structure Agent where
  debug : Bool
  quiet : Bool
  others : List (String × String)
deriving Repr, DecidableEq

/-- Observable events of one `start` cycle, in program order. -/
inductive Event where
  | usageExit
  | printVersion (s : String)
  | sampleConfig (inputFilters outputFilters : Option (List String))
  | inputUsageLookup (plugin : String)
  | outputUsageLookup (plugin : String)
  | printDefaults
  | loadConfig (path : String)
  | loadDirectory (path : String)
  | newAgent
  | testPass
  | connect
  | logStart (version : String)
  | writePidfile (path : String) (content : String)
deriving Repr, DecidableEq

/-- How one `start` cycle ends: `exit0` is `os.Exit(0)` from `usageExit`,
`ret` a `return` statement, `fatal` a `log.Fatal*` halt, and `fallthrough`
the end of the loop body without a return (run mode reaching line 295). -/
inductive Outcome where
  | exit0
  | ret
  | fatal (msg : String)
  | fallthrough
deriving Repr, DecidableEq

/-- Results of the external collaborators called by `start`:
`config.PrintInputConfig` / `PrintOutputConfig` (error or printed),
`c.LoadConfig`, `c.LoadDirectory`, `agent.NewAgent`, `ag.Connect`,
`ag.Test`, `os.Create` for the pidfile, `os.Getpid`, and `Version`. -/
structure Env where
  version : String
  pid : Nat
  inputUsage : String → Except String Unit
  outputUsage : String → Except String Unit
  loadConfig : Config → String → Except String Config
  loadDirectory : Config → String → Except String Config
  newAgent : Config → Except String Agent
  connect : Agent → Except String Unit
  testRun : Agent → Except String Unit
  createPidfile : String → Except String Unit

/-- One `if *dirFlag != "" { c.LoadDirectory(*dirFlag) }` block
(lines 233-238 and 240-245). -/
def mergeDir (env : Env) (dir : String) (c : Config) :
    List Event × Except String Config :=
  if dir ≠ "" then
    match env.loadDirectory c dir with
    | Except.error e => ([Event.loadDirectory dir], Except.error e)
    | Except.ok c2 => ([Event.loadDirectory dir], Except.ok c2)
  else ([], Except.ok c)

/-- Lines 233-245: the legacy directory block runs first, the current
directory block second, each aborting the cycle on error. -/
def mergeTwo (fl : Flags) (env : Env) (c : Config) :
    List Event × Except String Config :=
  match mergeDir env fl.fConfigDirectoryLegacy c with
  | (ev1, Except.error e) => (ev1, Except.error e)
  | (ev1, Except.ok c2) =>
    match mergeDir env fl.fConfigDirectory c2 with
    | (ev2, r) => (ev1 ++ ev2, r)

/-- Lines 219-245: build a fresh config handle, set the resolved filters,
load the primary file, then merge both optional directories. -/
def bootstrap (fl : Flags) (env : Env)
    (inputFilters outputFilters : Option (List String)) :
    List Event × Except String Config :=
  match env.loadConfig
      { Config.new with outputFilters := outputFilters, inputFilters := inputFilters }
      fl.fConfig with
  | Except.error e => ([Event.loadConfig fl.fConfig], Except.error e)
  | Except.ok c1 =>
    match mergeTwo fl env c1 with
    | (ev, r) => (Event.loadConfig fl.fConfig :: ev, r)

/-- Lines 258-264: `if *fDebug { ag.Config.Agent.Debug = true }` and
`if *fQuiet { ag.Config.Agent.Quiet = true }`. -/
def applyOverrides (fl : Flags) (ag : Agent) : Agent :=
  let ag1 := if fl.fDebug then { ag with debug := true } else ag
  if fl.fQuiet then { ag1 with quiet := true } else ag1

/-- Lines 246-293: validate the merged configuration, construct the agent,
apply the debug/quiet overrides, then either run one test pass or connect,
log the startup lines and write the pidfile. -/
def launch (fl : Flags) (env : Env) (c : Config) : List Event × Outcome :=
  if c.outputs.length = 0 then
    ([], Outcome.fatal "Error: no outputs found, did you provide a valid config file?")
  else if c.inputs.length = 0 then
    ([], Outcome.fatal "Error: no inputs found, did you provide a valid config file?")
  else
    match env.newAgent c with
    | Except.error e => ([Event.newAgent], Outcome.fatal e)
    | Except.ok ag0 =>
      if fl.fTest then
        match env.testRun (applyOverrides fl ag0) with
        | Except.error e => ([Event.newAgent, Event.testPass], Outcome.fatal e)
        | Except.ok _ => ([Event.newAgent, Event.testPass], Outcome.ret)
      else
        match env.connect (applyOverrides fl ag0) with
        | Except.error e => ([Event.newAgent, Event.connect], Outcome.fatal e)
        | Except.ok _ =>
          if fl.fPidfile ≠ "" then
            match env.createPidfile fl.fPidfile with
            | Except.error e =>
              ([Event.newAgent, Event.connect, Event.logStart env.version],
                Outcome.fatal ("Unable to create pidfile: " ++ e))
            | Except.ok _ =>
              ([Event.newAgent, Event.connect, Event.logStart env.version,
                Event.writePidfile fl.fPidfile (Nat.repr env.pid ++ "\n")],
                Outcome.fallthrough)
          else
            ([Event.newAgent, Event.connect, Event.logStart env.version],
              Outcome.fallthrough)

/-- Lines 167-293: the body of the reload loop.  `nflag` is `flag.NFlag()`
(number of flags set on the command line). -/
def runCycle (nflag : Nat) (fl : Flags) (env : Env) : List Event × Outcome :=
  if nflag = 0 then ([Event.usageExit], Outcome.exit0)
  else
    if fl.fVersion then
      ([Event.printVersion ("Telegraf - Version " ++ env.version)], Outcome.ret)
    else if fl.fSampleConfig then
      ([Event.sampleConfig (resolveFilters fl.fInputFiltersLegacy fl.fInputFilters)
          (resolveFilters fl.fOutputFiltersLegacy fl.fOutputFilters)], Outcome.ret)
    else if fl.fUsage ≠ "" then
      match env.inputUsage fl.fUsage with
      | Except.ok _ => ([Event.inputUsageLookup fl.fUsage], Outcome.ret)
      | Except.error e1 =>
        match env.outputUsage fl.fUsage with
        | Except.ok _ =>
          ([Event.inputUsageLookup fl.fUsage, Event.outputUsageLookup fl.fUsage],
            Outcome.ret)
        | Except.error e2 =>
          ([Event.inputUsageLookup fl.fUsage, Event.outputUsageLookup fl.fUsage],
            Outcome.fatal (e1 ++ " and " ++ e2))
    else if fl.fConfig ≠ "" then
      match bootstrap fl env (resolveFilters fl.fInputFiltersLegacy fl.fInputFilters)
          (resolveFilters fl.fOutputFiltersLegacy fl.fOutputFilters) with
      | (ev, Except.error e) => (ev, Outcome.fatal e)
      | (ev, Except.ok c) =>
        match launch fl env c with
        | (ev2, out) => (ev ++ ev2, out)
    else
      ([Event.printDefaults], Outcome.ret)

/-- Lines 162-296: the reload loop.  The channel `reload` has capacity one
and is primed with `true`; each body execution immediately sends `false`
and contains no other send, so the queue after a full body is `[false]`.
`loopSteps` counts body executions; a `return` or `log.Fatal` ends `start`
(and with it the count), a fall-through re-reads the channel.  `fuel`
bounds the number of loop iterations inspected. -/
def loopSteps (nflag : Nat) (fl : Flags) (env : Env) :
    Nat → List Bool → Nat
  | 0, _ => 0
  | _ + 1, [] => 0
  | fuel + 1, b :: rest =>
    if b then
      match (runCycle nflag fl env).2 with
      | Outcome.fallthrough => 1 + loopSteps nflag fl env fuel (rest ++ [false])
      | _ => 1
    else 0

/-- Number of bootstrap+launch body executions of one `start` invocation:
the loop starts on the queue `[true]`. -/
def startBodyRuns (nflag : Nat) (fl : Flags) (env : Env) (fuel : Nat) : Nat :=
  loopSteps nflag fl env fuel [true]

/-- Observable events of `main` (lines 106-160). -/
inductive MainEvent where
  | usageExit
  | svcInstall (name desc : String)
  | svcRemove (name : String)
  | svcStart (name : String)
  | svcStop (name : String)
  | printDone
  | runAsService (name : String)
  | runStart
deriving Repr, DecidableEq

/-- How `main` ends. -/
inductive MainOutcome where
  | exit0
  | ret
  | fatal (msg : String)
deriving Repr, DecidableEq

/-- Results of the winsvc calls made by `main`. -/
structure SvcEnv where
  installService : String → String → Except String Unit
  removeService : String → Except String Unit
  startService : String → Except String Unit
  stopService : String → Except String Unit
  inServiceMode : Bool
  runAsService : Except String Unit

/-- A `start` that returns (after the loop, a `return`, or `os.Exit`) lets
`main` return; a `log.Fatal` inside `start` halts the process. -/
def mapStartOutcome : Outcome → MainOutcome
  | Outcome.exit0 => MainOutcome.exit0
  | Outcome.ret => MainOutcome.ret
  | Outcome.fatal m => MainOutcome.fatal m
  | Outcome.fallthrough => MainOutcome.ret

/-- Lines 106-160: `main`.  The four administrative blocks run in source
order, each returning after printing `Done` or halting fatally; otherwise
control reaches the service-mode check and finally `start()`.  The
`runAsService` event marks handing control to the service manager (which
invokes `start` as a callback); `runStart` marks the direct call. -/
def mainRun (nflag : Nat) (fl : Flags) (env : Env) (svc : SvcEnv) :
    List MainEvent × MainOutcome :=
  if nflag = 0 then ([MainEvent.usageExit], MainOutcome.exit0)
  else if fl.fServiceInstall then
    match svc.installService fl.fServiceName fl.fServiceDesc with
    | Except.error e =>
      ([MainEvent.svcInstall fl.fServiceName fl.fServiceDesc],
        MainOutcome.fatal
          ("installService(" ++ fl.fServiceName ++ ", " ++ fl.fServiceDesc ++ "): " ++ e))
    | Except.ok _ =>
      ([MainEvent.svcInstall fl.fServiceName fl.fServiceDesc, MainEvent.printDone],
        MainOutcome.ret)
  else if fl.fServiceUninstall then
    match svc.removeService fl.fServiceName with
    | Except.error e =>
      ([MainEvent.svcRemove fl.fServiceName], MainOutcome.fatal ("removeService: " ++ e))
    | Except.ok _ =>
      ([MainEvent.svcRemove fl.fServiceName, MainEvent.printDone], MainOutcome.ret)
  else if fl.fServiceStart then
    match svc.startService fl.fServiceName with
    | Except.error e =>
      ([MainEvent.svcStart fl.fServiceName], MainOutcome.fatal ("startService: " ++ e))
    | Except.ok _ =>
      ([MainEvent.svcStart fl.fServiceName, MainEvent.printDone], MainOutcome.ret)
  else if fl.fServiceStop then
    match svc.stopService fl.fServiceName with
    | Except.error e =>
      ([MainEvent.svcStop fl.fServiceName], MainOutcome.fatal ("stopService: " ++ e))
    | Except.ok _ =>
      ([MainEvent.svcStop fl.fServiceName, MainEvent.printDone], MainOutcome.ret)
  else if svc.inServiceMode = false then
    match svc.runAsService with
    | Except.error e =>
      ([MainEvent.runAsService fl.fServiceName], MainOutcome.fatal ("svc.Run: " ++ e))
    | Except.ok _ =>
      ([MainEvent.runAsService fl.fServiceName], MainOutcome.ret)
  else
    ([MainEvent.runStart], mapStartOutcome (runCycle nflag fl env).2)

/-- A concrete flag record with every flag at its zero value (service name
and description at their declared defaults, lines 38-39). -/
def baseFlags : Flags where
  fDebug := false
  fQuiet := false
  fTest := false
  fConfig := ""
  fConfigDirectory := ""
  fVersion := false
  fSampleConfig := false
  fPidfile := ""
  fInputFilters := ""
  fOutputFilters := ""
  fUsage := ""
  fServiceName := "telegraf-winsvc"
  fServiceDesc := "Telegraf windows service"
  fServiceInstall := false
  fServiceUninstall := false
  fServiceStart := false
  fServiceStop := false
  fInputFiltersLegacy := ""
  fOutputFiltersLegacy := ""
  fConfigDirectoryLegacy := ""

/-- A concrete environment in which every collaborator succeeds and the
loader yields one input and one output plugin. -/
def envOk : Env where
  version := "0.10.1"
  pid := 4242
  inputUsage := fun _ => Except.ok ()
  outputUsage := fun _ => Except.ok ()
  loadConfig := fun c _ => Except.ok { c with inputs := ["cpu"], outputs := ["influxdb"] }
  loadDirectory := fun c _ => Except.ok c
  newAgent := fun _ =>
    Except.ok { debug := false, quiet := false, others := [("interval", "10s")] }
  connect := fun _ => Except.ok ()
  testRun := fun _ => Except.ok ()
  createPidfile := fun _ => Except.ok ()

/-- Like `envOk` but both plugin-usage lookups fail. -/
def envUsageFail : Env :=
  { envOk with
    inputUsage := fun _ => Except.error "Error finding plugin: nope"
    outputUsage := fun _ => Except.error "Error finding output: nope" }

/-- Like `envOk` but only the input-usage lookup fails, so the output
lookup rescues the usage request. -/
def envUsageRescue : Env :=
  { envOk with inputUsage := fun _ => Except.error "Error finding plugin: nope" }

/-- Like `envOk` but the loader yields a config with an input and no
outputs. -/
def envNoOutputs : Env :=
  { envOk with
    loadConfig := fun c _ => Except.ok { c with inputs := ["cpu"], outputs := [] } }

/-- Like `envOk` but every directory merge records the merged directory
name in the input list of the config, exposing the merge order. -/
def envDirTrace : Env :=
  { envOk with
    loadDirectory := fun c d => Except.ok { c with inputs := c.inputs ++ [d] } }

/-- The configuration that the loader of `envOk` produces. -/
def configW : Config :=
  { Config.new with inputs := ["cpu"], outputs := ["influxdb"] }

/-- The configuration that the loader of `envNoOutputs` produces. -/
def configNoOutW : Config :=
  { Config.new with inputs := ["cpu"], outputs := [] }

/-- The agent `envOk` constructs. -/
def agentW : Agent :=
  { debug := false, quiet := false, others := [("interval", "10s")] }

/-- Flags of `-config telegraf.conf -test -pidfile telegraf.pid`. -/
def flagsTestW : Flags :=
  { baseFlags with fConfig := "telegraf.conf", fTest := true, fPidfile := "telegraf.pid" }

/-- Flags of `-config telegraf.conf -pidfile telegraf.pid`. -/
def flagsRunW : Flags :=
  { baseFlags with fConfig := "telegraf.conf", fPidfile := "telegraf.pid" }

/-- Flags of `-usage nope`. -/
def flagsUsageW : Flags := { baseFlags with fUsage := "nope" }

/-- Flags of `-config c.conf`. -/
def flagsConfW : Flags := { baseFlags with fConfig := "c.conf" }

/-- Flags of `-config c.conf -configdirectory olddir -config-directory newdir`. -/
def flagsBothDirsW : Flags :=
  { baseFlags with
    fConfig := "c.conf"
    fConfigDirectory := "newdir"
    fConfigDirectoryLegacy := "olddir" }

/-- Flags with all four informational requests set at once. -/
def flagsInfoW : Flags :=
  { baseFlags with fVersion := true, fSampleConfig := true, fUsage := "mysql" }

/-- Flags of `-service-install`. -/
def flagsAdminW : Flags := { baseFlags with fServiceInstall := true }

/-- A winsvc environment in which every administrative call succeeds. -/
def svcOk : SvcEnv where
  installService := fun _ _ => Except.ok ()
  removeService := fun _ => Except.ok ()
  startService := fun _ => Except.ok ()
  stopService := fun _ => Except.ok ()
  inServiceMode := false
  runAsService := Except.ok ()

/-- C1 (counterexample): with args `-input-filter=cpu -filter=mem` the code
resolves the input filters by splitting `":cpu:"` at every colon, which
yields `["", "cpu", ""]`, not `["cpu"]`; and a whitespace-only current flag
(non-empty before trimming) still wins over the legacy flag, contradicting
the condition "non-empty after whitespace trimming" stated by the claim. -/
theorem c1_filter_precedence_counterexample :
    (resolveFilters "mem" "cpu" = some ["", "cpu", ""]
      ∧ (some ["", "cpu", ""] : Option (List String)) ≠ some ["cpu"])
    ∧ resolveFilters "mem" " " = some ["", "", ""] := by
  exact ⟨⟨by decide, by decide⟩, by decide⟩

/-- C1 (amended): the current flag wins whenever it is non-empty as given
(before trimming), else the non-empty legacy flag, else no filter; the
parse trims the flag value, brackets it in colons and splits at every
colon, so `-input-filter=cpu -filter=mem` resolves to `["", "cpu", ""]`. -/
theorem c1_filter_precedence_amended :
    (∀ legacy current, current ≠ "" →
      resolveFilters legacy current = some (parseFilter current))
    ∧ (∀ legacy, legacy ≠ "" →
      resolveFilters legacy "" = some (parseFilter legacy))
    ∧ resolveFilters "" "" = none
    ∧ parseFilter "cpu" = ["", "cpu", ""]
    ∧ resolveFilters "mem" "cpu" = some ["", "cpu", ""] := by
  refine ⟨?_, ?_, by decide, by decide, by decide⟩
  · intro legacy current hc
    simp [resolveFilters, hc]
  · intro legacy hl
    simp [resolveFilters, hl]

/-- C1 (witness): the amended precedence rule evaluated at the concrete flag
values of the scenario. -/
theorem c1_filter_precedence_amended_witness :
    resolveFilters "mem" "cpu" = some (parseFilter "cpu")
    ∧ resolveFilters "mem" "" = some (parseFilter "mem") := by
  exact ⟨c1_filter_precedence_amended.1 "mem" "cpu" (by decide),
    c1_filter_precedence_amended.2.1 "mem" (by decide)⟩

/-- C2: the reload token is primed once and every body execution re-arms
it with `false` only, so for any flags and environment the bootstrap+launch
body runs at most once, and with at least one iteration of fuel it runs
exactly once — the loop then reads the un-armed token and exits. -/
theorem c2_run_once (nflag : Nat) (fl : Flags) (env : Env) (fuel : Nat) :
    startBodyRuns nflag fl env fuel ≤ 1
    ∧ startBodyRuns nflag fl env (fuel + 1) = 1 := by
  have hfalse : ∀ f : Nat, loopSteps nflag fl env f [false] = 0 := by
    intro f
    cases f with
    | zero => rfl
    | succ n => simp [loopSteps]
  have key : ∀ f : Nat, loopSteps nflag fl env (f + 1) [true] = 1 := by
    intro f
    cases h : (runCycle nflag fl env).2 <;> simp [loopSteps, h, hfalse]
  constructor
  · cases fuel with
    | zero => simp [startBodyRuns, loopSteps]
    | succ n => simp [startBodyRuns, key n]
  · simp [startBodyRuns, key fuel]

lemma mergeDir_events (env : Env) (d : String) (c : Config) :
    ∀ e ∈ (mergeDir env d c).1, e = Event.loadDirectory d := by
  intro e he
  unfold mergeDir at he
  split at he
  · split at he <;> simpa using he
  · simp at he

lemma mergeTwo_events (fl : Flags) (env : Env) (c : Config) :
    ∀ e ∈ (mergeTwo fl env c).1,
      e = Event.loadDirectory fl.fConfigDirectoryLegacy
        ∨ e = Event.loadDirectory fl.fConfigDirectory := by
  intro e he
  unfold mergeTwo at he
  split at he
  · rename_i ev1 err heq
    exact Or.inl (mergeDir_events env _ c e (by rw [heq]; exact he))
  · rename_i ev1 c2 heq
    split at he
    rename_i ev2 r heq2
    rcases List.mem_append.mp he with h1 | h2
    · exact Or.inl (mergeDir_events env _ c e (by rw [heq]; exact h1))
    · exact Or.inr (mergeDir_events env _ c2 e (by rw [heq2]; exact h2))

lemma bootstrap_events (fl : Flags) (env : Env)
    (inF outF : Option (List String)) :
    ∀ e ∈ (bootstrap fl env inF outF).1,
      e = Event.loadConfig fl.fConfig
        ∨ e = Event.loadDirectory fl.fConfigDirectoryLegacy
        ∨ e = Event.loadDirectory fl.fConfigDirectory := by
  intro e he
  unfold bootstrap at he
  split at he
  · simp at he
    exact Or.inl he
  · rename_i c1 heq
    split at he
    rename_i ev r heq2
    simp at he
    rcases he with h | h
    · exact Or.inl h
    · exact Or.inr (mergeTwo_events fl env c1 e (by rw [heq2]; exact h))

/-- C3: when the configuration obtained after loading the primary file and
merging both directories has no outputs or no inputs, the cycle halts
fatally with the respective distinct message, and neither agent
construction nor a connect attempt ever appears in the trace. -/
theorem c3_validation_after_merge (nflag : Nat) (fl : Flags) (env : Env)
    (ev : List Event) (c : Config)
    (h0 : nflag ≠ 0) (hv : fl.fVersion = false) (hs : fl.fSampleConfig = false)
    (hu : fl.fUsage = "") (hc : fl.fConfig ≠ "")
    (hb : bootstrap fl env (resolveFilters fl.fInputFiltersLegacy fl.fInputFilters)
        (resolveFilters fl.fOutputFiltersLegacy fl.fOutputFilters) = (ev, Except.ok c))
    (hempty : c.outputs = [] ∨ c.inputs = []) :
    (runCycle nflag fl env).2
      = Outcome.fatal (if c.outputs = [] then
          "Error: no outputs found, did you provide a valid config file?"
        else "Error: no inputs found, did you provide a valid config file?")
    ∧ Event.newAgent ∉ (runCycle nflag fl env).1
    ∧ Event.connect ∉ (runCycle nflag fl env).1 := by
  have hlaunch : launch fl env c
      = ([], Outcome.fatal (if c.outputs = [] then
          "Error: no outputs found, did you provide a valid config file?"
        else "Error: no inputs found, did you provide a valid config file?")) := by
    by_cases ho : c.outputs = []
    · simp [launch, ho]
    · rcases hempty with h | h
      · exact absurd h ho
      · simp [launch, List.length_eq_zero, ho, h]
  have hrun : runCycle nflag fl env
      = (ev, Outcome.fatal (if c.outputs = [] then
          "Error: no outputs found, did you provide a valid config file?"
        else "Error: no inputs found, did you provide a valid config file?")) := by
    unfold runCycle
    simp [h0, hv, hs, hu, hc, hb, hlaunch]
  have hev : ∀ e, e ∈ ev →
      e = Event.loadConfig fl.fConfig
        ∨ e = Event.loadDirectory fl.fConfigDirectoryLegacy
        ∨ e = Event.loadDirectory fl.fConfigDirectory := by
    intro e he
    exact bootstrap_events fl env
      (resolveFilters fl.fInputFiltersLegacy fl.fInputFilters)
      (resolveFilters fl.fOutputFiltersLegacy fl.fOutputFilters) e
      (by rw [hb]; exact he)
  refine ⟨by rw [hrun], ?_, ?_⟩ <;> rw [hrun] <;> intro hmem <;>
    rcases hev _ hmem with h | h | h <;> simp at h

/-- C3 (witness): scenario C — a loaded config with zero outputs halts
fatally with the no-outputs message before agent construction or any
connect attempt. -/
theorem c3_validation_after_merge_witness :
    (runCycle 1 flagsConfW envNoOutputs).2
      = Outcome.fatal "Error: no outputs found, did you provide a valid config file?"
    ∧ Event.newAgent ∉ (runCycle 1 flagsConfW envNoOutputs).1
    ∧ Event.connect ∉ (runCycle 1 flagsConfW envNoOutputs).1 := by
  have h := c3_validation_after_merge 1 flagsConfW envNoOutputs
    [Event.loadConfig "c.conf"] configNoOutW (by decide) rfl rfl rfl (by decide)
    rfl (Or.inl rfl)
  refine ⟨h.1.trans (by rfl), h.2.1, h.2.2⟩

/-- C4: with both directory flags set, the legacy directory is merged
first and the current directory second (on the config produced by the
legacy merge); a failure of the legacy merge stops before the current
merge, and a bootstrap failure makes the whole cycle halt fatally. -/
theorem c4_directory_merge_order (fl : Flags) (env : Env) (c : Config)
    (hdl : fl.fConfigDirectoryLegacy ≠ "") (hdc : fl.fConfigDirectory ≠ "") :
    (∀ c2, env.loadDirectory c fl.fConfigDirectoryLegacy = Except.ok c2 →
      mergeTwo fl env c
        = ([Event.loadDirectory fl.fConfigDirectoryLegacy,
            Event.loadDirectory fl.fConfigDirectory],
          env.loadDirectory c2 fl.fConfigDirectory))
    ∧ (∀ e, env.loadDirectory c fl.fConfigDirectoryLegacy = Except.error e →
      mergeTwo fl env c
        = ([Event.loadDirectory fl.fConfigDirectoryLegacy], Except.error e))
    ∧ (∀ nflag ev e, nflag ≠ 0 → fl.fVersion = false → fl.fSampleConfig = false →
      fl.fUsage = "" → fl.fConfig ≠ "" →
      bootstrap fl env (resolveFilters fl.fInputFiltersLegacy fl.fInputFilters)
          (resolveFilters fl.fOutputFiltersLegacy fl.fOutputFilters)
        = (ev, Except.error e) →
      runCycle nflag fl env = (ev, Outcome.fatal e)) := by
  refine ⟨?_, ?_, ?_⟩
  · intro c2 h
    unfold mergeTwo mergeDir
    cases henv : env.loadDirectory c2 fl.fConfigDirectory <;>
      simp [hdl, hdc, h, henv]
  · intro e h
    unfold mergeTwo mergeDir
    simp [hdl, h]
  · intro nflag ev e h0 hv hs hu hc hb
    unfold runCycle
    simp [h0, hv, hs, hu, hc, hb]

/-- C4 (witness): with `-configdirectory olddir -config-directory newdir`
and a merge that records directory names, the legacy directory lands in
the config strictly before the current one. -/
theorem c4_directory_merge_order_witness :
    mergeTwo flagsBothDirsW envDirTrace Config.new
      = ([Event.loadDirectory "olddir", Event.loadDirectory "newdir"],
        Except.ok { Config.new with inputs := ["olddir", "newdir"] }) := by
  have h := c4_directory_merge_order flagsBothDirsW envDirTrace Config.new
    (by decide) (by decide)
  have h1 := h.1 { Config.new with inputs := ["olddir"] } (by rfl)
  exact h1.trans (by rfl)

/-- C5: when `-usage X` matches neither an input nor an output plugin, the
cycle halts with a single fatal message holding both failure reasons; when
the input lookup succeeds, only the input usage is printed and the output
lookup never happens. -/
theorem c5_usage_dual_lookup (nflag : Nat) (fl : Flags) (env : Env)
    (h0 : nflag ≠ 0) (hv : fl.fVersion = false) (hs : fl.fSampleConfig = false)
    (hu : fl.fUsage ≠ "") :
    (∀ e1 e2, env.inputUsage fl.fUsage = Except.error e1 →
      env.outputUsage fl.fUsage = Except.error e2 →
      runCycle nflag fl env
        = ([Event.inputUsageLookup fl.fUsage, Event.outputUsageLookup fl.fUsage],
          Outcome.fatal (e1 ++ " and " ++ e2)))
    ∧ (∀ u, env.inputUsage fl.fUsage = Except.ok u →
      runCycle nflag fl env = ([Event.inputUsageLookup fl.fUsage], Outcome.ret)) := by
  constructor
  · intro e1 e2 h1 h2
    unfold runCycle
    simp [h0, hv, hs, hu, h1, h2]
  · intro u h1
    unfold runCycle
    simp [h0, hv, hs, hu, h1]

/-- C5 (witness): `-usage nope` with both lookups failing evaluated at a
concrete environment — one fatal message holding both reasons. -/
theorem c5_usage_dual_lookup_witness :
    runCycle 1 flagsUsageW envUsageFail
      = ([Event.inputUsageLookup "nope", Event.outputUsageLookup "nope"],
        Outcome.fatal ("Error finding plugin: nope" ++ " and " ++ "Error finding output: nope")) := by
  have h := c5_usage_dual_lookup 1 flagsUsageW envUsageFail (by decide) rfl rfl (by decide)
  exact h.1 "Error finding plugin: nope" "Error finding output: nope" rfl rfl

lemma launch_test_no_pidfile (fl : Flags) (env : Env) (c : Config)
    (ht : fl.fTest = true) :
    ∀ p s, Event.writePidfile p s ∉ (launch fl env c).1 := by
  intro p s hmem
  unfold launch at hmem
  rw [ht] at hmem
  repeat' split at hmem
  all_goals simp_all

lemma runCycle_test_no_pidfile (nflag : Nat) (fl : Flags) (env : Env)
    (ht : fl.fTest = true) :
    ∀ p s, Event.writePidfile p s ∉ (runCycle nflag fl env).1 := by
  intro p s hmem
  unfold runCycle at hmem
  split at hmem
  · simp at hmem
  · split at hmem
    · simp at hmem
    · split at hmem
      · simp at hmem
      · split at hmem
        · split at hmem
          · simp at hmem
          · split at hmem <;> simp at hmem
        · split at hmem
          · split at hmem
            · rename_i ev e heq
              rcases bootstrap_events fl env
                  (resolveFilters fl.fInputFiltersLegacy fl.fInputFilters)
                  (resolveFilters fl.fOutputFiltersLegacy fl.fOutputFilters)
                  (Event.writePidfile p s)
                  (show _ ∈ (bootstrap fl env _ _).1 from by rw [heq]; exact hmem) with
                h | h | h <;> simp at h
            · rename_i ev c2 heq
              split at hmem
              rename_i ev2 out heq2
              rcases List.mem_append.mp hmem with h | h
              · rcases bootstrap_events fl env
                    (resolveFilters fl.fInputFiltersLegacy fl.fInputFilters)
                    (resolveFilters fl.fOutputFiltersLegacy fl.fOutputFilters)
                    (Event.writePidfile p s)
                    (show _ ∈ (bootstrap fl env _ _).1 from by rw [heq]; exact h) with
                  h2 | h2 | h2 <;> simp at h2
              · exact launch_test_no_pidfile fl env c2 ht p s (by rw [heq2]; exact h)
          · simp at hmem

/-- C6: with test mode active no pidfile write ever appears in the trace of the
cycle (whatever the pidfile flag says), and once the merged configuration
validates and the agent is constructed, exactly one collection pass runs,
no connect happens, and the launcher returns on success or halts fatally
on a collection error. -/
theorem c6_test_mode (nflag : Nat) (fl : Flags) (env : Env) (c : Config)
    (ht : fl.fTest = true) :
    (∀ p s, Event.writePidfile p s ∉ (runCycle nflag fl env).1)
    ∧ (∀ ag, c.outputs ≠ [] → c.inputs ≠ [] → env.newAgent c = Except.ok ag →
        ((launch fl env c).1.count Event.testPass = 1
          ∧ Event.connect ∉ (launch fl env c).1
          ∧ (env.testRun (applyOverrides fl ag) = Except.ok () →
              launch fl env c = ([Event.newAgent, Event.testPass], Outcome.ret))
          ∧ (∀ e, env.testRun (applyOverrides fl ag) = Except.error e →
              launch fl env c = ([Event.newAgent, Event.testPass], Outcome.fatal e)))) := by
  refine ⟨runCycle_test_no_pidfile nflag fl env ht, ?_⟩
  intro ag ho hi hag
  cases hres : env.testRun (applyOverrides fl ag) with
  | ok u =>
    have hl : launch fl env c = ([Event.newAgent, Event.testPass], Outcome.ret) := by
      unfold launch
      simp [List.length_eq_zero, ho, hi, hag, ht, hres]
    refine ⟨by rw [hl]; rfl, by rw [hl]; simp, fun _ => hl, ?_⟩
    intro e he
    exact absurd he (by simp)
  | error e0 =>
    have hl : launch fl env c = ([Event.newAgent, Event.testPass], Outcome.fatal e0) := by
      unfold launch
      simp [List.length_eq_zero, ho, hi, hag, ht, hres]
    refine ⟨by rw [hl]; rfl, by rw [hl]; simp, ?_, ?_⟩
    · intro hok
      exact absurd hok (by simp)
    · intro e he
      injection he with h
      rw [← h]
      exact hl

/-- C6 (witness): the test-mode contract evaluated on concrete flags that
also request a pidfile. -/
theorem c6_test_mode_witness :
    Event.writePidfile "telegraf.pid" "4242\n" ∉ (runCycle 3 flagsTestW envOk).1
    ∧ launch flagsTestW envOk configW
        = ([Event.newAgent, Event.testPass], Outcome.ret) := by
  have h := c6_test_mode 3 flagsTestW envOk configW rfl
  exact ⟨h.1 "telegraf.pid" "4242\n",
    (h.2 agentW (by decide) (by decide) rfl).2.2.1 rfl⟩

/-- C7: in a run-mode cycle with a configured pidfile whose validation,
agent construction and connect succeed, the pidfile is written exactly
once, with the decimal pid followed by a newline, strictly after the
connect; a pidfile-creation failure halts fatally. -/
theorem c7_run_mode_pidfile (fl : Flags) (env : Env) (c : Config) (ag : Agent)
    (ht : fl.fTest = false) (hp : fl.fPidfile ≠ "")
    (ho : c.outputs ≠ []) (hi : c.inputs ≠ [])
    (hag : env.newAgent c = Except.ok ag)
    (hcon : env.connect (applyOverrides fl ag) = Except.ok ()) :
    (env.createPidfile fl.fPidfile = Except.ok () →
      launch fl env c
        = ([Event.newAgent, Event.connect, Event.logStart env.version,
            Event.writePidfile fl.fPidfile (Nat.repr env.pid ++ "\n")],
          Outcome.fallthrough))
    ∧ (∀ e, env.createPidfile fl.fPidfile = Except.error e →
      launch fl env c
        = ([Event.newAgent, Event.connect, Event.logStart env.version],
          Outcome.fatal ("Unable to create pidfile: " ++ e))) := by
  constructor
  · intro hcp
    unfold launch
    simp [List.length_eq_zero, ho, hi, hag, ht, hcon, hp, hcp]
  · intro e hcp
    unfold launch
    simp [List.length_eq_zero, ho, hi, hag, ht, hcon, hp, hcp]

/-- C7 (witness): the run-mode pidfile contract evaluated on concrete
flags and environment. -/
theorem c7_run_mode_pidfile_witness :
    launch flagsRunW envOk configW
      = ([Event.newAgent, Event.connect, Event.logStart "0.10.1",
          Event.writePidfile "telegraf.pid" (Nat.repr 4242 ++ "\n")],
        Outcome.fallthrough) := by
  have h := c7_run_mode_pidfile flagsRunW envOk configW agentW rfl (by decide)
    (by decide) (by decide) rfl rfl
  exact h.1 rfl

/-- C8 (counterexample): with only `-usage nope` set, the usage request is
the first informational match, yet when both plugin lookups fail the cycle
ends fatally rather than with success. -/
theorem c8_informational_counterexample :
    (runCycle 1 flagsUsageW envUsageFail).2
      = Outcome.fatal ("Error finding plugin: nope" ++ " and " ++ "Error finding output: nope")
    ∧ (runCycle 1 flagsUsageW envUsageFail).2 ≠ Outcome.ret := by
  exact ⟨by decide, by decide⟩

/-- C8 (amended): the informational requests are evaluated in the fixed
order version, sample-config, usage, no-config fallback; the first one
that matches is handled and is terminal with no bootstrapping, the cycle
ending with success except that a usage request whose input and output
lookups both fail halts fatally. -/
theorem c8_informational_precedence (nflag : Nat) (fl : Flags) (env : Env)
    (h0 : nflag ≠ 0) :
    (fl.fVersion = true →
      runCycle nflag fl env
        = ([Event.printVersion ("Telegraf - Version " ++ env.version)], Outcome.ret))
    ∧ (fl.fVersion = false → fl.fSampleConfig = true →
      runCycle nflag fl env
        = ([Event.sampleConfig (resolveFilters fl.fInputFiltersLegacy fl.fInputFilters)
            (resolveFilters fl.fOutputFiltersLegacy fl.fOutputFilters)], Outcome.ret))
    ∧ (fl.fVersion = false → fl.fSampleConfig = false → fl.fUsage ≠ "" →
      ((∀ p, Event.loadConfig p ∉ (runCycle nflag fl env).1)
        ∧ (∀ u, env.inputUsage fl.fUsage = Except.ok u →
            runCycle nflag fl env = ([Event.inputUsageLookup fl.fUsage], Outcome.ret))
        ∧ (∀ e1 u, env.inputUsage fl.fUsage = Except.error e1 →
            env.outputUsage fl.fUsage = Except.ok u →
            runCycle nflag fl env
              = ([Event.inputUsageLookup fl.fUsage, Event.outputUsageLookup fl.fUsage],
                Outcome.ret))
        ∧ (∀ e1 e2, env.inputUsage fl.fUsage = Except.error e1 →
            env.outputUsage fl.fUsage = Except.error e2 →
            runCycle nflag fl env
              = ([Event.inputUsageLookup fl.fUsage, Event.outputUsageLookup fl.fUsage],
                Outcome.fatal (e1 ++ " and " ++ e2)))))
    ∧ (fl.fVersion = false → fl.fSampleConfig = false → fl.fUsage = "" →
      fl.fConfig = "" →
      runCycle nflag fl env = ([Event.printDefaults], Outcome.ret)) := by
  refine ⟨?_, ?_, ?_, ?_⟩
  · intro hv
    unfold runCycle
    simp [h0, hv]
  · intro hv hs
    unfold runCycle
    simp [h0, hv, hs]
  · intro hv hs hu
    have hcyc : runCycle nflag fl env
        = (match env.inputUsage fl.fUsage with
          | Except.ok _ => ([Event.inputUsageLookup fl.fUsage], Outcome.ret)
          | Except.error e1 =>
            match env.outputUsage fl.fUsage with
            | Except.ok _ =>
              ([Event.inputUsageLookup fl.fUsage, Event.outputUsageLookup fl.fUsage],
                Outcome.ret)
            | Except.error e2 =>
              ([Event.inputUsageLookup fl.fUsage, Event.outputUsageLookup fl.fUsage],
                Outcome.fatal (e1 ++ " and " ++ e2))) := by
      unfold runCycle
      simp [h0, hv, hs, hu]
    refine ⟨?_, ?_, ?_, ?_⟩
    · intro p
      rw [hcyc]
      cases h1 : env.inputUsage fl.fUsage with
      | ok u => simp
      | error e1 =>
        cases h2 : env.outputUsage fl.fUsage with
        | ok u => simp
        | error e2 => simp
    · intro u h1
      rw [hcyc, h1]
    · intro e1 u h1 h2
      rw [hcyc, h1, h2]
    · intro e1 e2 h1 h2
      rw [hcyc, h1, h2]
  · intro hv hs hu hc
    unfold runCycle
    simp [h0, hv, hs, hu, hc]

/-- C8 (witness): with every informational flag set, the version request
wins and is handled exactly as if it were alone; and at a concrete usage
request whose input lookup fails while the output lookup succeeds, the
cycle still ends with success. -/
theorem c8_informational_precedence_witness :
    runCycle 3 flagsInfoW envOk
      = ([Event.printVersion ("Telegraf - Version " ++ "0.10.1")], Outcome.ret)
    ∧ runCycle 1 flagsUsageW envUsageRescue
        = ([Event.inputUsageLookup "nope", Event.outputUsageLookup "nope"],
          Outcome.ret) := by
  constructor
  · exact (c8_informational_precedence 3 flagsInfoW envOk (by decide)).1 rfl
  · exact ((c8_informational_precedence 1 flagsUsageW envUsageRescue
        (by decide)).2.2.1 rfl rfl (by decide)).2.2.1
      "Error finding plugin: nope" () rfl rfl

/-- C9: whenever a service administration flag is set, the matching
one-shot command (the first set flag in the order install, remove, start,
stop) runs and is terminal — `Done` is printed and `main` returns, or the
process halts fatally — and neither the direct `start()` call nor the
hand-off to the service manager ever appears, so the reload loop never
runs. -/
theorem c9_admin_terminal (nflag : Nat) (fl : Flags) (env : Env) (svc : SvcEnv)
    (h0 : nflag ≠ 0)
    (hadm : fl.fServiceInstall = true ∨ fl.fServiceUninstall = true
      ∨ fl.fServiceStart = true ∨ fl.fServiceStop = true) :
    (MainEvent.runStart ∉ (mainRun nflag fl env svc).1
      ∧ (∀ n, MainEvent.runAsService n ∉ (mainRun nflag fl env svc).1)
      ∧ ((mainRun nflag fl env svc).2 = MainOutcome.ret
            ∧ MainEvent.printDone ∈ (mainRun nflag fl env svc).1
          ∨ ∃ m, (mainRun nflag fl env svc).2 = MainOutcome.fatal m))
    ∧ (fl.fServiceInstall = true →
      MainEvent.svcInstall fl.fServiceName fl.fServiceDesc ∈ (mainRun nflag fl env svc).1)
    ∧ (fl.fServiceInstall = false → fl.fServiceUninstall = true →
      MainEvent.svcRemove fl.fServiceName ∈ (mainRun nflag fl env svc).1)
    ∧ (fl.fServiceInstall = false → fl.fServiceUninstall = false →
      fl.fServiceStart = true →
      MainEvent.svcStart fl.fServiceName ∈ (mainRun nflag fl env svc).1)
    ∧ (fl.fServiceInstall = false → fl.fServiceUninstall = false →
      fl.fServiceStart = false → fl.fServiceStop = true →
      MainEvent.svcStop fl.fServiceName ∈ (mainRun nflag fl env svc).1) := by
  unfold mainRun
  cases h1 : fl.fServiceInstall <;> cases h2 : fl.fServiceUninstall <;>
    cases h3 : fl.fServiceStart <;> cases h4 : fl.fServiceStop <;>
      simp [h0, h1, h2, h3, h4] at hadm ⊢ <;>
    split <;> simp

/-- C9 (witness): the administrative contract evaluated at a concrete
`-service-install` invocation. -/
theorem c9_admin_terminal_witness :
    MainEvent.runStart ∉ (mainRun 1 flagsAdminW envOk svcOk).1
    ∧ MainEvent.svcInstall "telegraf-winsvc" "Telegraf windows service"
        ∈ (mainRun 1 flagsAdminW envOk svcOk).1 := by
  have h := c9_admin_terminal 1 flagsAdminW envOk svcOk (by decide) (Or.inl rfl)
  exact ⟨h.1.1, h.2.1 rfl⟩

/-- C10: the debug/quiet override step can only raise the debug and
quiet settings (new value = old OR flag), and it leaves every other engine
configuration field untouched. -/
theorem c10_debug_quiet_overrides (fl : Flags) (ag : Agent) :
    (applyOverrides fl ag).debug = (ag.debug || fl.fDebug)
    ∧ (applyOverrides fl ag).quiet = (ag.quiet || fl.fQuiet)
    ∧ (applyOverrides fl ag).others = ag.others := by
  unfold applyOverrides
  cases hd : fl.fDebug <;> cases hq : fl.fQuiet <;> simp [hd, hq]

end TelegrafWin
